import Mathlib

/-!
Verification of the daraja M-Pesa payment tracker against its specification.

The Python sources are shallowly embedded as executable Lean definitions:

* `validate_phone`, `validate_amount` — `src/mpesa_client.py` (Request Validator);
* `normalize_phone`, `save_transaction`, `get_transactions_by_phone`,
  `get_transaction_by_receipt` — `src/database.py` (Transaction Store);
* `fast_mpesa_callback` — `src/fast/callback.py` (callback webhook);
* `api_mpesa_callback` — `src/callback_handler.py` (callback webhook);
* `wait_for_callback`, `reconcileOutcome` — `src/mpesa_client.py` (Outcome
  Reconciler: the polling loop and the post-callback section of `stk_push`).

Python exceptions are modelled with `PyExc` / `PyOutcome`; JSON values seen by
the webhooks with `JVal`; attribute errors raised by `.get` on non-dicts are
modelled by `Except PyExc`.
-/

/-- The Python exceptions that the modelled code can raise or catch. -/
inductive PyExc where
  | validationError
  | valueError
  | overflowError
  | attributeError
  | typeError
  | operationalError
  | databaseError
  | storageError
deriving DecidableEq, Repr

/-- Result of calling a Python function: a returned value or a raised,
uncaught exception. -/
inductive PyOutcome (α : Type) where
  | returns (a : α)
  | raises (e : PyExc)
deriving DecidableEq, Repr

/-- JSON values as delivered to the webhooks by the HTTP layer.  JSON numbers
in gateway callbacks are integers, so numeric leaves are modelled as `Int`
(Python booleans are kept separate but compare as 0/1, see `jeqIntOpt`). -/
inductive JVal where
  | jnull
  | jbool (b : Bool)
  | jint (n : Int)
  | jstr (s : String)
  | jarr (xs : List JVal)
  | jobj (kvs : List (String × JVal))

/-- Key lookup in a JSON object's field list (Python dict lookup; dicts have
no duplicate keys, so first match is the value). -/
def lookupKV : List (String × JVal) → String → Option JVal
  | [], _ => none
  | (k, v) :: rest, key => if k = key then some v else lookupKV rest key

/-- Python `d.get(k)`: `None` when the key is absent; raises `AttributeError`
when the receiver is not a dict. -/
def pyGet : JVal → String → Except PyExc (Option JVal)
  | .jobj kvs, k => .ok (lookupKV kvs k)
  | _, _ => .error .attributeError

/-- Python `d.get(k, default)`: the default when the key is absent; raises
`AttributeError` when the receiver is not a dict. -/
def pyGetD (v : JVal) (k : String) (d : JVal) : Except PyExc JVal :=
  match v with
  | .jobj kvs => .ok ((lookupKV kvs k).getD d)
  | _ => .error .attributeError

/-- Python truthiness of a JSON value (`if x:`). -/
def truthy : JVal → Bool
  | .jnull => false
  | .jbool b => b
  | .jint n => n != 0
  | .jstr s => s ≠ ""
  | .jarr xs => !xs.isEmpty
  | .jobj kvs => !kvs.isEmpty

/-- Python truthiness of an optional value (`None` is falsy). -/
def optTruthy : Option JVal → Bool
  | none => false
  | some v => truthy v

/-- Python `for item in items`: lists iterate elements, strings iterate
one-character strings, dicts iterate keys, anything else raises `TypeError`. -/
def pyIter : JVal → Except PyExc (List JVal)
  | .jarr xs => .ok xs
  | .jstr s => .ok (s.toList.map fun c => .jstr (String.mk [c]))
  | .jobj kvs => .ok (kvs.map fun kv => .jstr kv.1)
  | _ => .error .typeError

/-- Python `v == n` for an optional JSON value against an integer literal
(`None == 0` is `False`; `True == 1` and `False == 0` hold in Python). -/
def jeqIntOpt (v : Option JVal) (n : Int) : Bool :=
  match v with
  | some (.jint m) => m == n
  | some (.jbool b) => (if b then (1 : Int) else 0) == n
  | _ => false

/-- Python `v == s` for an optional JSON value against a string literal. -/
def jeqStrOpt (v : Option JVal) (s : String) : Bool :=
  match v with
  | some (.jstr t) => t == s
  | _ => false

/-- Python `str.startswith`, on character lists (first argument is the
string, second the candidate head). -/
def startsWithC : List Char → List Char → Bool
  | _, [] => true
  | [], _ :: _ => false
  | c :: cs, p :: ps => c == p && startsWithC cs ps

/-! ## Request Validator (`src/mpesa_client.py`, `validate_phone` /
`validate_amount`) -/

/-- The if/elif rewriting chain of `validate_phone` (lines 140-149 of
`src/mpesa_client.py`), applied to the digit-stripped input.  The
`+254` branch is kept from the source even though `clean` never contains
a `+` after digit filtering. -/
def formatPhone (clean : List Char) : List Char :=
  if startsWithC clean ['0'] then ['2', '5', '4'] ++ clean.drop 1
  else if startsWithC clean ['2', '5', '4'] then clean
  else if startsWithC clean ['7'] then ['2', '5', '4'] ++ clean
  else if startsWithC clean ['+', '2', '5', '4'] then clean.drop 1
  else clean

/-- `MpesaClient.validate_phone`: empty input and digit-free input raise
`ValidationError`, otherwise the digit-stripped input is rewritten by the
prefix chain and must come out exactly 12 characters long. -/
def validate_phone (phone : List Char) : Except PyExc (List Char) :=
  if phone.isEmpty then .error .validationError
  else
    let clean := phone.filter Char.isDigit
    if clean.isEmpty then .error .validationError
    else
      let formatted := formatPhone clean
      if formatted.length ≠ 12 then .error .validationError
      else .ok formatted

/-- A parsed Python float: finite rational value, signed infinity, or NaN.
`float(raw)` either fails (unparsable input) or yields one of these. -/
inductive PyFloat where
  | finite (q : ℚ)
  | inf
  | neginf
  | nan
deriving DecidableEq, Repr

/-- Python `f < c` on a float: NaN and `inf` compare `False`. -/
def pyLtF : PyFloat → ℚ → Bool
  | .finite q, c => decide (q < c)
  | .inf, _ => false
  | .neginf, _ => true
  | .nan, _ => false

/-- Python `f > c` on a float: NaN and `-inf` compare `False`. -/
def pyGtF : PyFloat → ℚ → Bool
  | .finite q, c => decide (c < q)
  | .inf, _ => true
  | .neginf, _ => false
  | .nan, _ => false

/-- Truncation toward zero, the behaviour of Python `int()` on a finite
float. -/
def truncToward0 (q : ℚ) : Int :=
  if q < 0 then -((-q).floor) else q.floor

/-- Python `int(f)`: truncates a finite float, raises `ValueError` on NaN
and `OverflowError` on the infinities. -/
def pyInt : PyFloat → Except PyExc Int
  | .finite q => .ok (truncToward0 q)
  | .nan => .error .valueError
  | .inf => .error .overflowError
  | .neginf => .error .overflowError

/-- `MpesaClient.validate_amount` (lines 157-170 of `src/mpesa_client.py`).
The argument is the result of `float(amount)`: `none` when parsing raised
(caught and turned into `ValidationError`), otherwise the parsed float.
Only the parse failure is caught; the final `int()` conversion is outside
any try/except, so its exception propagates. -/
def validate_amount (parsed : Option PyFloat) : PyOutcome Int :=
  match parsed with
  | none => .raises .validationError
  | some f =>
    if pyLtF f 10 then .raises .validationError
    else if pyGtF f 150000 then .raises .validationError
    else
      match pyInt f with
      | .ok n => .returns n
      | .error e => .raises e

/-! ## Transaction Store (`src/database.py`) -/

/-- First-occurrence deduplication with a seen-accumulator, mirroring the
`seen` set loop at the end of `normalize_phone` (lines 127-134 of
`src/database.py`). -/
def dedupFirstAux (seen : List (List Char)) : List (List Char) → List (List Char)
  | [] => []
  | x :: xs =>
    if x ∈ seen then dedupFirstAux seen xs
    else x :: dedupFirstAux (x :: seen) xs

/-- `normalize_phone` (lines 97-136 of `src/database.py`): the list of phone
renderings the store queries for, in source order, deduplicated keeping the
first occurrence. -/
def normalize_phone (phone : List Char) : List (List Char) :=
  if phone.isEmpty then []
  else
    let clean := phone.filter Char.isDigit
    let fs0 : List (List Char) := if clean.isEmpty then [] else [clean]
    let fs1 :=
      if startsWithC clean ['0'] then fs0 ++ [['2', '5', '4'] ++ clean.drop 1] else fs0
    let fs2 :=
      if startsWithC clean ['2', '5', '4'] && clean.length > 3 then
        fs1 ++ [['0'] ++ clean.drop 3]
      else fs1
    let fs3 :=
      if startsWithC clean ['7'] && clean.length == 9 then
        fs2 ++ [['2', '5', '4'] ++ clean, ['0'] ++ clean]
      else fs2
    dedupFirstAux [] fs3

/-- One row of the `transactions` table written by `save_transaction`.
`date` models the `transaction_date` column (filled by the database clock at
insert time). -/
structure TxRow where
  name : List Char
  phone : List Char
  amount : Int
  receipt : List Char
  status : List Char
  date : Nat
deriving DecidableEq, Repr

/-- The `transactions` table: rows in insertion order. -/
abbrev TxTable := List TxRow

/-- Modelled from the spec: the DDL of the `transactions` table is not in the
repository (no CREATE TABLE under `src/`); per spec §4.5 ("treat
`receiptNumber` uniqueness as an enforced constraint") and the `unique=True`
declaration on the receipt column in `src/models.py`, `receipt_number`
carries a UNIQUE constraint, so an INSERT whose receipt already exists raises
a constraint error and the transaction is rolled back.  On success the
serial `RETURNING id` value is the new row count. -/
def insertTx (t : TxTable) (r : TxRow) : Except PyExc (TxTable × Nat) :=
  if t.any fun row => row.receipt == r.receipt then .error .databaseError
  else .ok (t ++ [r], t.length + 1)

/-- `save_transaction` (lines 139-162 of `src/database.py`): normalizes the
phone, stores under the first rendering, inserts one row.  The surrounding
`try`/`except Exception` catches every failure — connection errors
(`connOk = false`) and constraint violations alike — logs, and returns
`None`; a successful insert returns the new id.  `date` is the database
clock at insert time. -/
def save_transaction (t : TxTable) (connOk : Bool) (name phone : List Char)
    (amount : Int) (receipt status : List Char) (date : Nat) :
    TxTable × PyOutcome (Option Nat) :=
  let phone_formats := normalize_phone phone
  let stored_phone := phone_formats.headD phone
  let dbres : Except PyExc (TxTable × Nat) :=
    if connOk then insertTx t ⟨name, stored_phone, amount, receipt, status, date⟩
    else .error .operationalError
  match dbres with
  | .ok (t2, id) => (t2, .returns (some id))
  | .error _ => (t, .returns none)

/-- Insertion into a list kept sorted by `date` descending; equal dates keep
earlier-inserted rows first. -/
def insertByDateDesc (r : TxRow) : List TxRow → List TxRow
  | [] => [r]
  | x :: xs => if x.date ≥ r.date then x :: insertByDateDesc r xs else r :: x :: xs

/-- `ORDER BY transaction_date DESC` on a row list. -/
def sortByDateDesc : List TxRow → List TxRow
  | [] => []
  | x :: xs => insertByDateDesc x (sortByDateDesc xs)

/-- `get_transactions_by_phone` (lines 165-212 of `src/database.py`):
`WHERE phone_number IN (formats) ORDER BY transaction_date DESC LIMIT limit`.
The empty-formats early return precedes any database work; the surrounding
`try`/`except Exception` turns every failure into an empty list. -/
def get_transactions_by_phone (t : TxTable) (connOk : Bool) (phone : List Char)
    (limit : Nat) : PyOutcome (List TxRow) :=
  let phone_formats := normalize_phone phone
  if phone_formats.isEmpty then .returns []
  else
    let dbres : Except PyExc (List TxRow) :=
      if connOk then
        .ok ((sortByDateDesc (t.filter fun r => phone_formats.contains r.phone)).take limit)
      else .error .operationalError
    match dbres with
    | .ok rows => .returns rows
    | .error _ => .returns []

/-- `get_transaction_by_receipt` (lines 215-228 of `src/database.py`):
`SELECT * WHERE receipt_number = ...` with `fetchone`; the surrounding
`try`/`except Exception` turns every failure into `None`. -/
def get_transaction_by_receipt (t : TxTable) (connOk : Bool)
    (receipt : List Char) : PyOutcome (Option TxRow) :=
  let dbres : Except PyExc (Option TxRow) :=
    if connOk then .ok ((t.filter fun r => r.receipt == receipt).head?)
    else .error .operationalError
  match dbres with
  | .ok row => .returns row
  | .error _ => .returns none

/-- Arguments of one `save_transaction` call, with the connection state and
database clock at that call. -/
structure SaveArgs where
  name : List Char
  phone : List Char
  amount : Int
  receipt : List Char
  status : List Char
  date : Nat
  connOk : Bool
deriving Repr

/-- Run a sequence of `save_transaction` calls against a table. -/
def applySaves (t : TxTable) : List SaveArgs → TxTable
  | [] => t
  | a :: rest =>
    applySaves (save_transaction t a.connOk a.name a.phone a.amount a.receipt
      a.status a.date).1 rest

/-- Number of stored rows carrying a given receipt number. -/
def countReceipt (t : TxTable) (rcpt : List Char) : Nat :=
  (t.filter fun r => r.receipt == rcpt).length

/-! ## Callback webhooks (`src/fast/callback.py` and
`src/callback_handler.py`) -/

/-- The JSON acknowledgment a webhook sends back to the gateway. -/
structure Ack where
  resultCode : Int
  resultDesc : String
deriving DecidableEq, Repr

/-- The `{"ResultCode": 0, "ResultDesc": "Success"}` acknowledgment. -/
def successAck : Ack := ⟨0, "Success"⟩

/-- The `{"ResultCode": 1, "ResultDesc": "Invalid callback data"}`
acknowledgment of `src/fast/callback.py` line 119. -/
def invalidAck : Ack := ⟨1, "Invalid callback data"⟩

/-- Receipt extraction loop of `src/fast/callback.py` lines 141-146: first
item whose `Name` is `MpesaReceiptNumber` wins (the loop breaks), its
`Value` (possibly `None`) is the receipt; `item.get` on a non-dict item
raises. -/
def findReceiptFast : List JVal → Except PyExc (Option JVal)
  | [] => .ok none
  | item :: rest =>
    match pyGet item "Name" with
    | .error e => .error e
    | .ok nm =>
      if jeqStrOpt nm "MpesaReceiptNumber" then pyGet item "Value"
      else findReceiptFast rest

/-- Lines 121-160 of `mpesa_callback` in `src/fast/callback.py`: everything
after the `if not stk_callback` guard.  `dbFails` says whether the
`update_transaction_by_checkout` call raises; that call sits in its own
inner `try`, so its failure never changes the response. -/
def fastRest (stk : JVal) (dbFails : Bool) : Except PyExc Ack :=
  match pyGet stk "CheckoutRequestID" with
  | .error e => .error e
  | .ok _checkout_id =>
    match pyGet stk "ResultCode" with
    | .error e => .error e
    | .ok rc =>
      match pyGet stk "ResultDesc" with
      | .error e => .error e
      | .ok _rd =>
        -- callback_store[checkout_id] = {...}: in-memory dict write,
        -- never raises
        if jeqIntOpt rc 0 then
          match pyGetD stk "CallbackMetadata" (.jobj []) with
          | .error e => .error e
          | .ok md =>
            match pyGetD md "Item" (.jarr []) with
            | .error e => .error e
            | .ok itemsV =>
              match pyIter itemsV with
              | .error e => .error e
              | .ok items =>
                match findReceiptFast items with
                | .error e => .error e
                | .ok receipt =>
                  -- if receipt: inner try around the database update
                  -- catches dbFails and only logs
                  let _dbUpdated := optTruthy receipt && !dbFails
                  .ok successAck
        else .ok successAck

/-- Body of the `try` block of `mpesa_callback` in `src/fast/callback.py`
(lines 110-160), after the request JSON has parsed to `cd`. -/
def fastProcess (cd : JVal) (dbFails : Bool) : Except PyExc Ack :=
  match pyGetD cd "Body" (.jobj []) with
  | .error e => .error e
  | .ok body =>
    match pyGetD body "stkCallback" (.jobj []) with
    | .error e => .error e
    | .ok stk =>
      if !truthy stk then .ok invalidAck
      else fastRest stk dbFails

/-- `mpesa_callback` of `src/fast/callback.py`: the request body either fails
to parse (`.error`) or parses to a `JVal`; the outer `except Exception`
turns every raised exception into the success acknowledgment. -/
def fast_mpesa_callback (parse : Except PyExc JVal) (dbFails : Bool) : Ack :=
  match parse with
  | .error _ => successAck
  | .ok cd =>
    match fastProcess cd dbFails with
    | .ok a => a
    | .error _ => successAck

/-- The Boolean deciding whether `fast_mpesa_callback` answers with the
invalid-data acknowledgment: the body parsed to a dict, its (defaulted)
`Body` is a dict, and that dict's (defaulted) `stkCallback` is falsy. -/
def fastInvalid (parse : Except PyExc JVal) : Bool :=
  match parse with
  | .error _ => false
  | .ok (.jobj kvs) =>
    match (lookupKV kvs "Body").getD (.jobj []) with
    | .jobj kvs2 => !truthy ((lookupKV kvs2 "stkCallback").getD (.jobj []))
    | _ => false
  | .ok _ => false

/-- Metadata loop of `src/callback_handler.py` lines 71-79: no break, later
items overwrite earlier ones; the collected fields are
(receipt, transactionDate, phoneNumber, amount). -/
def apiScanItems :
    List JVal → Option JVal × Option JVal × Option JVal × Option JVal →
    Except PyExc (Option JVal × Option JVal × Option JVal × Option JVal)
  | [], acc => .ok acc
  | item :: rest, (r, d, p, a) =>
    match pyGet item "Name" with
    | .error e => .error e
    | .ok nm =>
      if jeqStrOpt nm "MpesaReceiptNumber" then
        match pyGet item "Value" with
        | .error e => .error e
        | .ok v => apiScanItems rest (v, d, p, a)
      else if jeqStrOpt nm "TransactionDate" then
        match pyGet item "Value" with
        | .error e => .error e
        | .ok v => apiScanItems rest (r, v, p, a)
      else if jeqStrOpt nm "PhoneNumber" then
        match pyGet item "Value" with
        | .error e => .error e
        | .ok v => apiScanItems rest (r, d, v, a)
      else if jeqStrOpt nm "Amount" then
        match pyGet item "Value" with
        | .error e => .error e
        | .ok v => apiScanItems rest (r, d, p, v)
      else apiScanItems rest (r, d, p, a)

/-- The status string `src/callback_handler.py` writes into `update_data`
(lines 67-89): `COMPLETED` for result code 0, `CANCELLED` for 1032,
`FAILED` otherwise (including a missing result code). -/
def apiStatus (rc : Option JVal) : String :=
  if jeqIntOpt rc 0 then "COMPLETED"
  else if jeqIntOpt rc 1032 then "CANCELLED"
  else "FAILED"

/-- Body of the `try` block of `mpesa_callback` in `src/callback_handler.py`
(lines 45-98) after the request JSON has parsed to `cd`: yields the
acknowledgment together with the status stored by `update_transaction`.
`dbFails` says whether that update raises; it has no inner `try`, so the
exception escapes to the outer handler. -/
def apiProcess (cd : JVal) (dbFails : Bool) : Except PyExc (Ack × String) :=
  match pyGetD cd "Body" (.jobj []) with
  | .error e => .error e
  | .ok body =>
    match pyGetD body "stkCallback" (.jobj []) with
    | .error e => .error e
    | .ok stk =>
      match pyGet stk "CheckoutRequestID" with
      | .error e => .error e
      | .ok _checkout_id =>
        match pyGet stk "ResultCode" with
        | .error e => .error e
        | .ok rc =>
          match pyGet stk "ResultDesc" with
          | .error e => .error e
          | .ok _rd =>
            let step : Except PyExc Unit :=
              if jeqIntOpt rc 0 then
                match pyGetD stk "CallbackMetadata" (.jobj []) with
                | .error e => .error e
                | .ok md =>
                  match pyGetD md "Item" (.jarr []) with
                  | .error e => .error e
                  | .ok itemsV =>
                    match pyIter itemsV with
                    | .error e => .error e
                    | .ok items =>
                      match apiScanItems items (none, none, none, none) with
                      | .error e => .error e
                      | .ok _fields => .ok ()
              else .ok ()
            match step with
            | .error e => .error e
            | .ok _ =>
              if dbFails then .error .databaseError
              else .ok (successAck, apiStatus rc)

/-- `mpesa_callback` of `src/callback_handler.py`: parse failure or any
raised exception is caught by the outer `except Exception` and masked
behind the success acknowledgment (in which case no status was stored,
hence `none`). -/
def api_mpesa_callback (parse : Except PyExc JVal) (dbFails : Bool) :
    Ack × Option String :=
  match parse with
  | .error _ => (successAck, none)
  | .ok cd =>
    match apiProcess cd dbFails with
    | .ok (a, st) => (a, some st)
    | .error _ => (successAck, none)

/-! ## Outcome Reconciler (`src/mpesa_client.py`, `wait_for_callback` and the
post-callback section of `stk_push`, lines 311-371) -/

/-- The dictionary `stk_push` returns to its caller.  `reason` and `receipt`
hold the JSON values placed in the dict (absent keys are `none`);
`checkout_id` is the correlation ID when the dict carries one. -/
structure PushResponse where
  success : Bool
  reason : Option JVal
  receipt : Option JVal
  checkout_id : Option String

/-- The success dictionary of `stk_push` lines 355-359. -/
def successResponse (cid : String) (receipt : Option JVal) : PushResponse :=
  ⟨true, none, receipt, some cid⟩

/-- The failure dictionary of `stk_push` lines 361-363 (callback with a
non-zero result code). -/
def failureResponse (reason : JVal) : PushResponse :=
  ⟨false, some reason, none, none⟩

/-- The timeout dictionary of `stk_push` lines 367-371 (no callback
received): reason `Callback timeout` plus the correlation ID. -/
def timeoutResponse (cid : String) : PushResponse :=
  ⟨false, some (.jstr "Callback timeout"), none, some cid⟩

/-- The dictionary built by the outer `except Exception` of `stk_push`
(lines 379-382).  The source interpolates the exception text into the
reason; the model keeps the fixed prefix. -/
def unexpectedResponse : PushResponse :=
  ⟨false, some (.jstr "Unexpected error"), none, none⟩

/-- Metadata loop of `stk_push` lines 328-334: no break, later items
overwrite earlier ones; the collected fields are
(receipt, amountPaid, phonePaid). -/
def scanItems :
    List JVal → Option JVal × Option JVal × Option JVal →
    Except PyExc (Option JVal × Option JVal × Option JVal)
  | [], acc => .ok acc
  | item :: rest, (r, a, p) =>
    match pyGet item "Name" with
    | .error e => .error e
    | .ok nm =>
      if jeqStrOpt nm "MpesaReceiptNumber" then
        match pyGet item "Value" with
        | .error e => .error e
        | .ok v => scanItems rest (v, a, p)
      else if jeqStrOpt nm "Amount" then
        match pyGet item "Value" with
        | .error e => .error e
        | .ok v => scanItems rest (r, v, p)
      else if jeqStrOpt nm "PhoneNumber" then
        match pyGet item "Value" with
        | .error e => .error e
        | .ok v => scanItems rest (r, a, v)
      else scanItems rest (r, a, p)

/-- Lines 313-371 of `stk_push`, given the value `wait_for_callback`
returned (`cb`).  The result is `some` of the returned dictionary, or
`none` for the path that falls off the end of the `try` block: when the
result code is 0 but the extracted receipt is falsy, the `if receipt:`
body is skipped, no `else` exists for it, and Python returns `None`.
`save_transaction` is called on the success path; it catches all its own
errors, so it cannot raise here. -/
def processCallback (cid : String) (cb : Option JVal) :
    Except PyExc (Option PushResponse) :=
  if optTruthy cb then
    match pyGetD (cb.getD .jnull) "full_data" (.jobj []) with
    | .error e => .error e
    | .ok stored_data =>
      match pyGetD stored_data "Body" (.jobj []) with
      | .error e => .error e
      | .ok body =>
        match pyGetD body "stkCallback" (.jobj []) with
        | .error e => .error e
        | .ok stk =>
          match pyGet stk "ResultCode" with
          | .error e => .error e
          | .ok rc =>
            if jeqIntOpt rc 0 then
              match pyGetD stk "CallbackMetadata" (.jobj []) with
              | .error e => .error e
              | .ok md =>
                match pyGetD md "Item" (.jarr []) with
                | .error e => .error e
                | .ok itemsV =>
                  match pyIter itemsV with
                  | .error e => .error e
                  | .ok items =>
                    match scanItems items (none, none, none) with
                    | .error e => .error e
                    | .ok (receipt, _amount_paid, _phone_paid) =>
                      if optTruthy receipt then
                        .ok (some (successResponse cid receipt))
                      else
                        .ok none
            else
              match pyGetD stk "ResultDesc" (.jstr "Transaction failed") with
              | .error e => .error e
              | .ok reason => .ok (some (failureResponse reason))
  else
    .ok (some (timeoutResponse cid))

/-- The reconciliation outcome `stk_push` hands its caller, with the outer
`except Exception` applied: a raised exception becomes the
unexpected-error failure dictionary; otherwise the dictionary from
`processCallback` — or `none` on the fall-through path. -/
def reconcileOutcome (cid : String) (cb : Option JVal) : Option PushResponse :=
  match processCallback cid cb with
  | .ok r => r
  | .error _ => some unexpectedResponse

/-- `wait_for_callback` (lines 177-236 of `src/mpesa_client.py`), abstracted
over wall-clock time: `inbox` is the callback server's store lookup
(`/mpesa/callback-status/{id}` answers `received: true` with the stored
entry exactly when the ID is a key), and `fuel` is the number of polls the
timeout window admits (sleeps and backoff only affect how many polls fit).
The loop returns the stored entry as soon as a poll finds it and `None`
when the window closes. -/
def wait_for_callback (inbox : String → Option JVal) (cid : String) :
    Nat → Option JVal
  | 0 => none
  | fuel + 1 =>
    match inbox cid with
    | some entry => some entry
    | none => wait_for_callback inbox cid fuel

/-- The whole reconciliation flow of `stk_push` after initiation: wait for
the callback, then normalize it into the caller-visible result. -/
def stkFlowOutcome (inbox : String → Option JVal) (cid : String) (fuel : Nat) :
    Option PushResponse :=
  reconcileOutcome cid (wait_for_callback inbox cid fuel)

/-! ## Concrete callback payloads used in the theorems -/

/-- A stored callback entry (as the status endpoint hands it to
`wait_for_callback`) whose `stkCallback` has result code 0 but whose
metadata has no `MpesaReceiptNumber` item. -/
def entryZeroNoReceipt : JVal :=
  .jobj
    [("received", .jbool true),
     ("result_code", .jint 0),
     ("result_desc", .jstr "The service request is processed successfully."),
     ("full_data", .jobj
       [("Body", .jobj
         [("stkCallback", .jobj
           [("CheckoutRequestID", .jstr "ws_CO_c1"),
            ("ResultCode", .jint 0),
            ("ResultDesc", .jstr "The service request is processed successfully."),
            ("CallbackMetadata", .jobj
              [("Item", .jarr
                [.jobj [("Name", .jstr "Amount"), ("Value", .jint 50)],
                 .jobj [("Name", .jstr "PhoneNumber"),
                        ("Value", .jint 254712345678)]])])])])])]

/-- A stored callback entry with the given result code and description and
no metadata (the gateway omits `CallbackMetadata` on non-success codes). -/
def mkStoreEntry (rc : Int) (desc : String) : JVal :=
  .jobj
    [("received", .jbool true),
     ("full_data", .jobj
       [("Body", .jobj
         [("stkCallback", .jobj
           [("CheckoutRequestID", .jstr "ws_CO_c4"),
            ("ResultCode", .jint rc),
            ("ResultDesc", .jstr desc)])])])]

/-- A raw webhook body with the given result code and description and no
metadata. -/
def mkWebhookBody (rc : Int) (desc : String) : JVal :=
  .jobj
    [("Body", .jobj
      [("stkCallback", .jobj
        [("CheckoutRequestID", .jstr "ws_CO_c4"),
         ("ResultCode", .jint rc),
         ("ResultDesc", .jstr desc)])])]

/-! ## C1 -/

/-- C1: a callback whose `stkCallback` carries result code 0 but whose
metadata lacks an `MpesaReceiptNumber` item is NOT reconciled to an
explicit `CONFIRMED_FAILED` result.  The `if receipt:` block of `stk_push`
is skipped, no `else` matches it, and the function falls off the end of
its `try` block: the caller receives Python `None` (`none` here) instead
of any success-or-failure dictionary, contradicting the spec's
"fall through to CONFIRMED_FAILED with a descriptive reason". -/
theorem c1_zero_code_without_receipt_yields_no_result :
    reconcileOutcome "ws_CO_c1" (some entryZeroNoReceipt) = none := rfl

/-! ## C10 -/

/-- C10: `validate_amount` is not total over its `ValidationError` channel:
a NaN float passes both range guards (NaN comparisons are `False` in
Python), reaches the unguarded `int()` conversion, and raises
`ValueError`, an exception outside the spec's error taxonomy. -/
theorem c10_nan_amount_escapes_validation_error_channel :
    pyLtF .nan 10 = false
  ∧ pyGtF .nan 150000 = false
  ∧ validate_amount (some .nan) = .raises .valueError
  ∧ PyExc.valueError ≠ PyExc.validationError :=
  ⟨rfl, rfl, rfl, by decide⟩

/-! ## C8 -/

/-- C8: `validate_amount` accepts a parsable finite amount exactly when it
lies in the inclusive range `[10, 150000]`, truncating it to an integer;
the boundaries 10 and 150000 are accepted, while 9, 150001 and unparsable
input are rejected with `ValidationError`. -/
theorem c8_amount_range_boundary_inclusive :
    validate_amount (some (.finite 10)) = .returns 10
  ∧ validate_amount (some (.finite 150000)) = .returns 150000
  ∧ validate_amount (some (.finite 9)) = .raises .validationError
  ∧ validate_amount (some (.finite 150001)) = .raises .validationError
  ∧ validate_amount none = .raises .validationError
  ∧ (∀ q : ℚ, 10 ≤ q → q ≤ 150000 →
      validate_amount (some (.finite q)) = .returns (truncToward0 q))
  ∧ (∀ q : ℚ, q < 10 ∨ 150000 < q →
      validate_amount (some (.finite q)) = .raises .validationError) := by
  refine ⟨by decide, by decide, by decide, by decide, rfl, ?_, ?_⟩
  · intro q h1 h2
    have hlt : ¬(q < 10) := not_lt.mpr h1
    have hgt : ¬((150000 : ℚ) < q) := not_lt.mpr h2
    simp [validate_amount, pyLtF, pyGtF, hlt, hgt, pyInt]
  · intro q h
    rcases h with h | h
    · simp [validate_amount, pyLtF, h]
    · have hlt : ¬(q < 10) := not_lt.mpr (le_trans (by norm_num) h.le)
      simp [validate_amount, pyLtF, pyGtF, hlt, h]

/-- Witness for C8: the in-range conjunct applied at the concrete amount
777. -/
theorem c8_amount_range_boundary_inclusive_witness :
    validate_amount (some (.finite 777)) = .returns (truncToward0 777) :=
  c8_amount_range_boundary_inclusive.2.2.2.2.2.1 777 (by norm_num) (by norm_num)

/-! ## C2 -/

/-- C2 counterexample: a `save_transaction` call during a connection failure
does not surface any `StorageError` to the caller — the `except Exception`
block swallows the failure and the call returns `None`, indistinguishable
in channel from "no id". -/
theorem c2_counterexample_save_failure_swallowed :
    (save_transaction [] false ['n'] ['0', '7', '1', '2', '3', '4', '5', '6', '7', '8']
        50 ['R', 'X', '1'] ['S'] 0).2 = .returns none
  ∧ PyOutcome.returns (none : Option Nat) ≠ PyOutcome.raises .storageError :=
  ⟨rfl, by decide⟩

/-- C2 amended: every connection or constraint failure of the three store
operations is caught, logged and swallowed; the caller receives a sentinel
(`None` for `save_transaction` and `get_transaction_by_receipt`, the empty
list for `get_transactions_by_phone`) rather than a raised `StorageError`,
and a failed save leaves the table unchanged. -/
theorem c2_store_failures_return_sentinels :
    ∀ (t : TxTable) (name phone : List Char) (amount : Int)
      (receipt status : List Char) (date limit : Nat),
      (save_transaction t false name phone amount receipt status date).2
          = .returns none
    ∧ (save_transaction t false name phone amount receipt status date).1 = t
    ∧ get_transactions_by_phone t false phone limit = .returns []
    ∧ get_transaction_by_receipt t false receipt = .returns none
    ∧ ((t.any fun row => row.receipt == receipt) = true →
        (save_transaction t true name phone amount receipt status date).2
          = .returns none) := by
  intro t name phone amount receipt status date limit
  refine ⟨rfl, rfl, ?_, rfl, ?_⟩
  · by_cases h : (normalize_phone phone).isEmpty <;>
      simp [get_transactions_by_phone, h]
  · intro hdup
    simp [save_transaction, insertTx, hdup]

/-- Witness for C2: the constraint-failure conjunct at a concrete duplicate
receipt — the second insert of receipt `R` returns `None`. -/
theorem c2_store_failures_return_sentinels_witness :
    (save_transaction [⟨['n'], ['p'], 1, ['R'], ['S'], 0⟩] true ['n'] ['p'] 1
        ['R'] ['S'] 1).2 = .returns none :=
  (c2_store_failures_return_sentinels [⟨['n'], ['p'], 1, ['R'], ['S'], 0⟩]
    ['n'] ['p'] 1 ['R'] ['S'] 1 0).2.2.2.2 (by decide)

/-! ## C5 -/

/-- A successful insert implies no stored row already carried the receipt. -/
lemma countReceipt_eq_zero_of_any_false (t : TxTable) (rcpt : List Char)
    (h : (t.any fun row => row.receipt == rcpt) = false) :
    countReceipt t rcpt = 0 := by
  unfold countReceipt
  rw [List.length_eq_zero]
  rw [List.filter_eq_nil_iff]
  intro a ha
  have := List.any_eq_false.mp h a ha
  simpa using this

/-- One `save_transaction` call preserves "at most one row per receipt". -/
lemma countReceipt_save_le (t : TxTable) (a : SaveArgs) (rcpt : List Char)
    (h : countReceipt t rcpt ≤ 1) :
    countReceipt
      (save_transaction t a.connOk a.name a.phone a.amount a.receipt
        a.status a.date).1 rcpt ≤ 1 := by
  rcases a with ⟨name, phone, amount, receipt, status, date, connOk⟩
  cases connOk with
  | false => simpa [save_transaction] using h
  | true =>
    by_cases hdup : (t.any fun row => row.receipt == receipt) = true
    · simpa [save_transaction, insertTx, hdup] using h
    · have hdup' : (t.any fun row => row.receipt == receipt) = false := by
        simpa using hdup
      have hsave : (save_transaction t true name phone amount receipt
          status date).1
          = t ++ [⟨name, (normalize_phone phone).headD phone, amount, receipt,
              status, date⟩] := by
        simp [save_transaction, insertTx, hdup']
      rw [hsave]
      unfold countReceipt
      rw [List.filter_append, List.length_append]
      by_cases hr : receipt = rcpt
      · subst hr
        have h0 := countReceipt_eq_zero_of_any_false t receipt hdup'
        unfold countReceipt at h0
        simp [h0]
      · have hnil : (List.filter (fun r => r.receipt == rcpt)
            [(⟨name, (normalize_phone phone).headD phone, amount, receipt,
              status, date⟩ : TxRow)]) = [] := by
          simp [hr]
        rw [hnil]
        simpa [countReceipt] using h

/-- C5: `receipt_number` uniqueness is enforced (constraint modelled from
the spec and `src/models.py`, see `insertTx`): after any sequence of
`save_transaction` calls against an initially empty table, at most one
stored row exists per receipt number — a duplicate insert is rejected by
the constraint and rolled back, never stored twice. -/
theorem c5_receipt_number_at_most_one_row :
    ∀ (ops : List SaveArgs) (rcpt : List Char),
      countReceipt (applySaves [] ops) rcpt ≤ 1 := by
  have step : ∀ (ops : List SaveArgs) (t : TxTable) (rcpt : List Char),
      countReceipt t rcpt ≤ 1 → countReceipt (applySaves t ops) rcpt ≤ 1 := by
    intro ops
    induction ops with
    | nil => intro t rcpt h; simpa [applySaves] using h
    | cons a rest ih =>
      intro t rcpt h
      simp only [applySaves]
      exact ih _ rcpt (countReceipt_save_le t a rcpt h)
  intro ops rcpt
  exact step ops [] rcpt (by simp [countReceipt])

/-! ## C7 -/

lemma startsWithC_nil (l : List Char) : startsWithC l [] = true := by
  cases l <;> rfl

lemma starts254_shape (l : List Char)
    (h : startsWithC l ['2', '5', '4'] = true) :
    ∃ rest, l = '2' :: '5' :: '4' :: rest := by
  rcases l with _ | ⟨a, _ | ⟨b, _ | ⟨c, rest⟩⟩⟩
  · simp [startsWithC] at h
  · simp [startsWithC] at h
  · simp [startsWithC] at h
  · simp only [startsWithC, startsWithC_nil, Bool.and_true, Bool.and_eq_true,
      beq_iff_eq] at h
    obtain ⟨ha, hb, hc⟩ := h
    subst ha; subst hb; subst hc
    exact ⟨rest, rfl⟩

lemma startsPlus254_shape (l : List Char)
    (h : startsWithC l ['+', '2', '5', '4'] = true) :
    ∃ t, l = '+' :: t ∧ startsWithC t ['2', '5', '4'] = true := by
  rcases l with _ | ⟨a, t⟩
  · simp [startsWithC] at h
  · simp only [startsWithC, Bool.and_eq_true, beq_iff_eq] at h
    obtain ⟨ha, ht⟩ := h
    subst ha
    exact ⟨t, rfl, by simpa [startsWithC] using ht⟩

lemma starts254_append (l : List Char) :
    startsWithC (['2', '5', '4'] ++ l) ['2', '5', '4'] = true := by
  simp [startsWithC, startsWithC_nil]

lemma starts254_append_not0 (l : List Char) :
    startsWithC (['2', '5', '4'] ++ l) ['0'] = false := by
  have h : (('2' : Char) == '0') = false := by decide
  simp [startsWithC, h]

/-- A string already starting with `254` is a fixed point of the rewriting
chain. -/
lemma formatPhone_of_starts254 (l : List Char)
    (h : startsWithC l ['2', '5', '4'] = true) : formatPhone l = l := by
  obtain ⟨rest, rfl⟩ := starts254_shape l h
  have h0 : startsWithC ('2' :: '5' :: '4' :: rest) ['0'] = false := by
    have : (('2' : Char) == '0') = false := by decide
    simp [startsWithC, this]
  simp [formatPhone, h0, h]

/-- The rewriting chain of `validate_phone` is idempotent. -/
lemma formatPhone_idem (l : List Char) :
    formatPhone (formatPhone l) = formatPhone l := by
  by_cases h1 : startsWithC l ['0'] = true
  · have hfl : formatPhone l = ['2', '5', '4'] ++ l.drop 1 := by
      simp [formatPhone, h1]
    rw [hfl]
    exact formatPhone_of_starts254 _ (starts254_append _)
  · have h1' : startsWithC l ['0'] = false := by simpa using h1
    by_cases h2 : startsWithC l ['2', '5', '4'] = true
    · have hfl : formatPhone l = l := by simp [formatPhone, h1', h2]
      rw [hfl]
      exact formatPhone_of_starts254 _ h2
    · have h2' : startsWithC l ['2', '5', '4'] = false := by simpa using h2
      by_cases h3 : startsWithC l ['7'] = true
      · have hfl : formatPhone l = ['2', '5', '4'] ++ l := by
          simp [formatPhone, h1', h2', h3]
        rw [hfl]
        exact formatPhone_of_starts254 _ (starts254_append _)
      · have h3' : startsWithC l ['7'] = false := by simpa using h3
        by_cases h4 : startsWithC l ['+', '2', '5', '4'] = true
        · have hfl : formatPhone l = l.drop 1 := by
            simp [formatPhone, h1', h2', h3', h4]
          obtain ⟨t, rfl, ht⟩ := startsPlus254_shape l h4
          rw [hfl]
          exact formatPhone_of_starts254 _ ht
        · have h4' : startsWithC l ['+', '2', '5', '4'] = false := by
            simpa using h4
          have hfl : formatPhone l = l := by
            simp [formatPhone, h1', h2', h3', h4']
          rw [hfl]
          exact hfl

/-- The rewriting chain only emits digit characters when fed digits. -/
lemma allDigits_formatPhone (l : List Char) (h : ∀ c ∈ l, c.isDigit = true) :
    ∀ c ∈ formatPhone l, c.isDigit = true := by
  intro c hc
  unfold formatPhone at hc
  split_ifs at hc with h1 h2 h3 h4
  · rcases List.mem_append.mp hc with hm | hm
    · fin_cases hm <;> decide
    · exact h c (List.mem_of_mem_drop hm)
  · exact h c hc
  · rcases List.mem_append.mp hc with hm | hm
    · fin_cases hm <;> decide
    · exact h c hm
  · exact h c (List.mem_of_mem_drop hc)
  · exact h c hc

/-- C7: `validate_phone` maps each of the four accepted renderings of
`0712345678` to the canonical `254712345678`; it rejects with
`ValidationError` exactly when the input has no digits or the rewritten
digit string is not 12 characters long; and it is idempotent on every
value it accepts. -/
theorem c7_validate_phone_canonical_total_idempotent :
    (validate_phone ("0712345678".toList) = .ok ("254712345678".toList)
   ∧ validate_phone ("254712345678".toList) = .ok ("254712345678".toList)
   ∧ validate_phone ("+254712345678".toList) = .ok ("254712345678".toList)
   ∧ validate_phone ("712345678".toList) = .ok ("254712345678".toList))
  ∧ (∀ x : List Char,
      validate_phone x = .error .validationError
        ↔ (x.filter Char.isDigit = []
            ∨ (formatPhone (x.filter Char.isDigit)).length ≠ 12))
  ∧ (∀ x y : List Char, validate_phone x = .ok y → validate_phone y = .ok y) := by
  refine ⟨⟨rfl, rfl, rfl, rfl⟩, ?_, ?_⟩
  · intro x
    simp only [validate_phone]
    by_cases hx : x.isEmpty = true
    · have h0 : x = [] := List.isEmpty_iff.mp hx
      subst h0
      simp
    · rw [if_neg hx]
      by_cases hc : (List.filter Char.isDigit x).isEmpty = true
      · rw [if_pos hc]
        simp [List.isEmpty_iff.mp hc]
      · rw [if_neg hc]
        have hne : List.filter Char.isDigit x ≠ [] := by
          simpa [List.isEmpty_iff] using hc
        by_cases hl : (formatPhone (List.filter Char.isDigit x)).length ≠ 12
        · rw [if_pos hl]
          simp [hl]
        · rw [if_neg hl]
          simp [hl, hne]
  · intro x y h
    simp only [validate_phone] at h
    by_cases hx : x.isEmpty = true
    · rw [if_pos hx] at h
      exact absurd h (by simp)
    · rw [if_neg hx] at h
      by_cases hc : (List.filter Char.isDigit x).isEmpty = true
      · rw [if_pos hc] at h
        exact absurd h (by simp)
      · rw [if_neg hc] at h
        by_cases hl : (formatPhone (List.filter Char.isDigit x)).length ≠ 12
        · rw [if_pos hl] at h
          exact absurd h (by simp)
        · rw [if_neg hl] at h
          have hy : y = formatPhone (List.filter Char.isDigit x) := by
            injection h with h2
            exact h2.symm
          have hlen : y.length = 12 := by
            rw [hy]
            exact not_ne_iff.mp hl
          have hdig : ∀ c ∈ y, c.isDigit = true := by
            rw [hy]
            exact allDigits_formatPhone _ fun c hc' => (List.mem_filter.mp hc').2
          have hyne : y ≠ [] := by
            intro h0
            rw [h0] at hlen
            simp at hlen
          have hyE : y.isEmpty = false := by
            simpa [List.isEmpty_iff] using hyne
          have hyfilter : List.filter Char.isDigit y = y :=
            List.filter_eq_self.mpr hdig
          have hfy : formatPhone y = y := by
            rw [hy, formatPhone_idem]
          simp [validate_phone, hyE, hyfilter, hfy, hlen]

/-- Witness for C7: idempotence applied to the accepted input `0799000111`,
whose canonical output revalidates to itself. -/
theorem c7_validate_phone_witness :
    validate_phone ("254799000111".toList) = .ok ("254799000111".toList) :=
  c7_validate_phone_canonical_total_idempotent.2.2 ("0799000111".toList)
    ("254799000111".toList) (by rfl)

/-! ## C9 -/

/-- `normalize_phone` on a leading-0 rendering of an all-digit local part. -/
lemma normalize_phone_lead0 (s : List Char) (hd : ∀ c ∈ s, c.isDigit = true) :
    normalize_phone ('0' :: s) = ['0' :: s, '2' :: '5' :: '4' :: s] := by
  have hfilter : List.filter Char.isDigit ('0' :: s) = '0' :: s := by
    rw [List.filter_cons_of_pos (by decide), List.filter_eq_self.mpr hd]
  have h0 : startsWithC ('0' :: s) ['0'] = true := by
    simp [startsWithC, startsWithC_nil]
  have h254 : startsWithC ('0' :: s) ['2', '5', '4'] = false := by
    have : (('0' : Char) == '2') = false := by decide
    simp [startsWithC, this]
  have h7 : startsWithC ('0' :: s) ['7'] = false := by
    have : (('0' : Char) == '7') = false := by decide
    simp [startsWithC, this]
  have hne : ('2' :: '5' :: '4' :: s : List Char) ≠ '0' :: s := by
    intro h
    injection h with h1 _
    exact absurd h1 (by decide)
  simp [normalize_phone, hfilter, h0, h254, h7, dedupFirstAux, hne]

/-- `normalize_phone` on a leading-254 rendering of a nonempty all-digit
local part. -/
lemma normalize_phone_lead254 (s : List Char)
    (hd : ∀ c ∈ s, c.isDigit = true) (hne : s ≠ []) :
    normalize_phone ('2' :: '5' :: '4' :: s)
      = ['2' :: '5' :: '4' :: s, '0' :: s] := by
  have hfilter : List.filter Char.isDigit ('2' :: '5' :: '4' :: s)
      = '2' :: '5' :: '4' :: s := by
    rw [List.filter_cons_of_pos (by decide), List.filter_cons_of_pos (by decide),
      List.filter_cons_of_pos (by decide), List.filter_eq_self.mpr hd]
  have h0 : startsWithC ('2' :: '5' :: '4' :: s) ['0'] = false := by
    have : (('2' : Char) == '0') = false := by decide
    simp [startsWithC, this]
  have h254 : startsWithC ('2' :: '5' :: '4' :: s) ['2', '5', '4'] = true := by
    simp [startsWithC, startsWithC_nil]
  have h7 : startsWithC ('2' :: '5' :: '4' :: s) ['7'] = false := by
    have : (('2' : Char) == '7') = false := by decide
    simp [startsWithC, this]
  have hpos : 0 < s.length := List.length_pos.mpr hne
  have hne2 : ('0' :: s : List Char) ≠ '2' :: '5' :: '4' :: s := by
    intro h
    injection h with h1 _
    exact absurd h1 (by decide)
  simp [normalize_phone, hfilter, h0, h254, h7, hpos, dedupFirstAux, hne2]

/-- C9: querying the store with the leading-0 rendering and with the
leading-254 rendering of the same local part returns the same ordered
result list, whatever normalized format each record was stored under. -/
theorem c9_find_by_phone_format_independent :
    ∀ (s : List Char) (t : TxTable) (limit : Nat),
      (∀ c ∈ s, c.isDigit = true) → s ≠ [] →
      get_transactions_by_phone t true ('0' :: s) limit
        = get_transactions_by_phone t true ('2' :: '5' :: '4' :: s) limit := by
  intro s t limit hd hne
  have hcongr : (t.filter fun r =>
        decide (r.phone = '0' :: s) || decide (r.phone = '2' :: '5' :: '4' :: s))
      = t.filter fun r =>
        decide (r.phone = '2' :: '5' :: '4' :: s) || decide (r.phone = '0' :: s) := by
    apply List.filter_congr
    intro r _
    exact Bool.or_comm _ _
  simp [get_transactions_by_phone, normalize_phone_lead0 s hd,
    normalize_phone_lead254 s hd hne, hcongr]

/-- Witness for C9: the two renderings of `712345678` return the same rows
from a concrete two-row table. -/
theorem c9_find_by_phone_format_independent_witness :
    get_transactions_by_phone
        [⟨['a'], "254712345678".toList, 50, ['R', '1'], ['S'], 2⟩,
         ⟨['b'], "0712345678".toList, 60, ['R', '2'], ['S'], 1⟩]
        true ("0712345678".toList) 10
      = get_transactions_by_phone
        [⟨['a'], "254712345678".toList, 50, ['R', '1'], ['S'], 2⟩,
         ⟨['b'], "0712345678".toList, 60, ['R', '2'], ['S'], 1⟩]
        true ("254712345678".toList) 10 :=
  c9_find_by_phone_format_independent ("712345678".toList)
    [⟨['a'], "254712345678".toList, 50, ['R', '1'], ['S'], 2⟩,
     ⟨['b'], "0712345678".toList, 60, ['R', '2'], ['S'], 1⟩]
    10 (by decide) (by decide)

/-! ## C3 -/

/-- Every `.ok` result of `fastRest` is the success acknowledgment. -/
lemma fastRest_ok_eq (stk : JVal) (d : Bool) (a : Ack)
    (h : fastRest stk d = .ok a) : a = successAck := by
  unfold fastRest at h
  repeat' split at h
  all_goals try exact Except.noConfusion h
  all_goals (simp at h; exact h.symm)

/-- Every `.ok` result of `apiProcess` carries the success acknowledgment. -/
lemma apiProcess_ok_ack (cd : JVal) (d : Bool) (p : Ack × String)
    (h : apiProcess cd d = .ok p) : p.1 = successAck := by
  unfold apiProcess at h
  repeat' split at h
  all_goals try exact Except.noConfusion h
  all_goals (simp at h; rw [← h])

/-- `fast_mpesa_callback` on a parsed body answers the invalid-data
acknowledgment exactly when `fastInvalid` says so, and the success
acknowledgment otherwise. -/
lemma fast_cb_characterization (cd : JVal) (d : Bool) :
    fast_mpesa_callback (.ok cd) d
      = (if fastInvalid (.ok cd) then invalidAck else successAck) := by
  cases cd with
  | jobj kvs =>
    cases hbody : (lookupKV kvs "Body").getD (.jobj []) with
    | jobj kvs2 =>
      by_cases ht : truthy ((lookupKV kvs2 "stkCallback").getD (.jobj [])) = true
      · rcases hr : fastRest ((lookupKV kvs2 "stkCallback").getD (.jobj [])) d
          with e | a
        · simp [fast_mpesa_callback, fastProcess, fastInvalid, pyGetD, hbody,
            ht, hr]
        · have ha := fastRest_ok_eq _ _ _ hr
          subst ha
          simp [fast_mpesa_callback, fastProcess, fastInvalid, pyGetD, hbody,
            ht, hr]
      · have ht' : truthy ((lookupKV kvs2 "stkCallback").getD (.jobj []))
            = false := by simpa using ht
        simp [fast_mpesa_callback, fastProcess, fastInvalid, pyGetD, hbody, ht']
    | jnull =>
      simp [fast_mpesa_callback, fastProcess, fastInvalid, pyGetD, hbody]
    | jbool b =>
      simp [fast_mpesa_callback, fastProcess, fastInvalid, pyGetD, hbody]
    | jint n =>
      simp [fast_mpesa_callback, fastProcess, fastInvalid, pyGetD, hbody]
    | jstr s =>
      simp [fast_mpesa_callback, fastProcess, fastInvalid, pyGetD, hbody]
    | jarr xs =>
      simp [fast_mpesa_callback, fastProcess, fastInvalid, pyGetD, hbody]
  | jnull => simp [fast_mpesa_callback, fastProcess, fastInvalid, pyGetD]
  | jbool b => simp [fast_mpesa_callback, fastProcess, fastInvalid, pyGetD]
  | jint n => simp [fast_mpesa_callback, fastProcess, fastInvalid, pyGetD]
  | jstr s => simp [fast_mpesa_callback, fastProcess, fastInvalid, pyGetD]
  | jarr xs => simp [fast_mpesa_callback, fastProcess, fastInvalid, pyGetD]

/-- C3 counterexample: a parsed body with no `stkCallback` element makes the
`src/fast/callback.py` webhook answer
`{ResultCode: 1, ResultDesc: "Invalid callback data"}`, a non-success
acknowledgment — the webhook does not always reply success. -/
theorem c3_counterexample_missing_stk_nonsuccess_ack :
    fast_mpesa_callback (.ok (.jobj [])) false = invalidAck
  ∧ invalidAck ≠ successAck :=
  ⟨rfl, by decide⟩

/-- C3 amended: the `src/callback_handler.py` webhook always acknowledges
`{ResultCode: 0, ResultDesc: "Success"}` (malformed bodies, missing
elements and storage exceptions included), and the `src/fast/callback.py`
webhook does so except in exactly one case: a body that parses to a dict
whose (defaulted) `Body` is a dict with a falsy (missing or empty)
`stkCallback`, which is acknowledged with
`{ResultCode: 1, ResultDesc: "Invalid callback data"}`. -/
theorem c3_amended_webhook_ack_characterization :
    ∀ (parse : Except PyExc JVal) (dbFails : Bool),
      (api_mpesa_callback parse dbFails).1 = successAck
    ∧ fast_mpesa_callback parse dbFails
        = (if fastInvalid parse then invalidAck else successAck) := by
  intro parse d
  constructor
  · cases parse with
    | error e => rfl
    | ok cd =>
      rcases hp : apiProcess cd d with e | p
      · simp [api_mpesa_callback, hp]
      · have hack := apiProcess_ok_ack cd d p hp
        rcases p with ⟨a, st⟩
        simp only [api_mpesa_callback, hp]
        simpa using hack
  · cases parse with
    | error e => rfl
    | ok cd => exact fast_cb_characterization cd d

/-! ## C4 -/

/-- C4 counterexample: the reconciler in `stk_push` returns for result code
1032 (user cancelled) exactly the same failure dictionary it returns for
result code 1 with the same description — there is no distinct
`CONFIRMED_CANCELLED` outcome at the reconciler. -/
theorem c4_counterexample_1032_same_as_generic_failure :
    reconcileOutcome "ws_CO_c4"
        (some (mkStoreEntry 1032 "Request cancelled by user"))
      = some (failureResponse (.jstr "Request cancelled by user"))
  ∧ reconcileOutcome "ws_CO_c4"
        (some (mkStoreEntry 1 "Request cancelled by user"))
      = some (failureResponse (.jstr "Request cancelled by user")) :=
  ⟨rfl, rfl⟩

/-- C4 amended: only the `src/callback_handler.py` webhook gives 1032 a
distinct terminal status — it stores `CANCELLED` for 1032 and `FAILED`
for every other non-zero code, and those differ; the reconciler in
`src/mpesa_client.py` instead returns the same failure-shaped dictionary
`{success: False, reason: resultDescription}` for 1032 as for any other
non-zero code. -/
theorem c4_amended_cancelled_distinct_only_in_webhook
    : apiStatus (some (.jint 1032)) = "CANCELLED"
  ∧ (∀ n : Int, n ≠ 0 → n ≠ 1032 → apiStatus (some (.jint n)) = "FAILED")
  ∧ ("CANCELLED" : String) ≠ "FAILED"
  ∧ api_mpesa_callback (.ok (mkWebhookBody 1032 "Request cancelled by user"))
        false = (successAck, some "CANCELLED")
  ∧ (∀ (rc : Int) (desc : String), rc ≠ 0 →
      reconcileOutcome "ws_CO_c4" (some (mkStoreEntry rc desc))
        = some (failureResponse (.jstr desc))) := by
  refine ⟨rfl, ?_, by decide, rfl, ?_⟩
  · intro n h0 h1032
    simp [apiStatus, jeqIntOpt, h0, h1032]
  · intro rc desc h0
    have hb : (rc == 0) = false := by simpa using h0
    simp [reconcileOutcome, processCallback, mkStoreEntry, optTruthy, truthy,
      pyGetD, pyGet, lookupKV, jeqIntOpt, hb]

/-- Witness for C4: the amended non-zero, non-1032 branch at result code 1,
and the reconciler branch at code 1. -/
theorem c4_amended_cancelled_witness :
    apiStatus (some (.jint 1)) = "FAILED" :=
  c4_amended_cancelled_distinct_only_in_webhook.2.1 1 (by decide) (by decide)

/-! ## C6 -/

/-- Any result the reconciler produces from an actually delivered (truthy)
callback entry is either a success result or carries no correlation ID —
so it can never be mistaken for the timeout result, which is a
non-success result carrying the correlation ID. -/
lemma reconcile_entry_shape (cid : String) (entry : JVal) (r : PushResponse)
    (ht : truthy entry = true)
    (h : reconcileOutcome cid (some entry) = some r) :
    r.success = true ∨ r.checkout_id = none := by
  unfold reconcileOutcome at h
  rcases hp : processCallback cid (some entry) with e | o
  all_goals rw [hp] at h
  · simp only [Option.some.injEq] at h
    subst h
    exact Or.inr rfl
  · unfold processCallback at hp
    simp only [optTruthy, ht, if_true] at hp
    repeat' split at hp
    all_goals try exact Except.noConfusion hp
    all_goals (injection hp with hp2; rw [← hp2] at h; simp at h)
    all_goals (subst h; first | exact Or.inl rfl | exact Or.inr rfl)

/-- C6: when no callback for the correlation ID ever reaches the inbox, the
flow terminates with the timeout result: a non-success dictionary whose
reason is `Callback timeout` and which carries the correlation ID so the
caller can re-check later — and no callback-derived result (in particular
no `CONFIRMED_FAILED` result) can equal it. -/
theorem c6_timeout_distinct_with_correlation_id
    (inbox : String → Option JVal) (cid : String) (fuel : Nat)
    (h : inbox cid = none) :
    stkFlowOutcome inbox cid fuel = some (timeoutResponse cid)
  ∧ (timeoutResponse cid).success = false
  ∧ (timeoutResponse cid).checkout_id = some cid
  ∧ (∀ (entry : JVal) (r : PushResponse), truthy entry = true →
      reconcileOutcome cid (some entry) = some r →
      r ≠ timeoutResponse cid) := by
  have hwait : wait_for_callback inbox cid fuel = none := by
    induction fuel with
    | zero => rfl
    | succ n ih => simp [wait_for_callback, h, ih]
  refine ⟨?_, rfl, rfl, ?_⟩
  · unfold stkFlowOutcome
    rw [hwait]
    rfl
  · intro entry r ht hr heq
    rcases reconcile_entry_shape cid entry r ht hr with hs | hc
    · rw [heq] at hs
      exact Bool.noConfusion hs
    · rw [heq] at hc
      exact Option.noConfusion hc

/-- Witness for C6: a flow whose inbox never receives the callback times out
after 7 polls with the timeout result for its correlation ID. -/
theorem c6_timeout_witness :
    stkFlowOutcome (fun _ => none) "ws_CO_w" 7 = some (timeoutResponse "ws_CO_w")
  ∧ (timeoutResponse "ws_CO_w").success = false
  ∧ (timeoutResponse "ws_CO_w").checkout_id = some "ws_CO_w"
  ∧ (∀ (entry : JVal) (r : PushResponse), truthy entry = true →
      reconcileOutcome "ws_CO_w" (some entry) = some r →
      r ≠ timeoutResponse "ws_CO_w") :=
  c6_timeout_distinct_with_correlation_id (fun _ => none) "ws_CO_w" 7 rfl
